import Mathlib

/-!
Verification of the Rust_Server TCP server (src/server.rs).

The development shallowly embeds the core of server.rs: the per-client
read-decode-dispatch-write loop (Client::handle), the acceptor loop
(Server::run), shutdown (Server::stop) and construction
(Server::new_with_port).  Sockets, the OS and the prost codec are external
collaborators; their outcomes (bytes read, decode success, write success,
accept results, shutdown results) appear as oracle data in event traces,
while everything the Rust code itself decides is translated faithfully.
Machine integers (i32) are modelled as Int with explicit two-complement
reduction mod 2 ^ 32.
-/

namespace RustServer

/-! ## Message data model (prost-generated message module) -/

/-- EchoMessage with its content field. -/
structure EchoMessage where
  content : String
deriving DecidableEq, Repr

/-- AddRequest carrying two i32 operands, modelled as unbounded Int; the
range side conditions appear in the theorems. -/
structure AddRequest where
  a : Int
  b : Int
deriving DecidableEq, Repr

/-- AddResponse carrying the i32 result field. -/
structure AddResponse where
  result : Int
deriving DecidableEq, Repr

/-- The oneof payload of a ClientMessage. -/
inductive ClientPayload
  | echoMessage (m : EchoMessage)
  | addRequest (r : AddRequest)
deriving DecidableEq, Repr

/-- ClientMessage: prost generates the oneof as an Option field, so a
decoded message may carry no payload at all. -/
structure ClientMessage where
  message : Option ClientPayload
deriving DecidableEq, Repr

/-- The oneof payload of a ServerMessage. -/
inductive ServerPayload
  | echoMessage (m : EchoMessage)
  | addResponse (r : AddResponse)
deriving DecidableEq, Repr

/-- ServerMessage written back to the client. -/
structure ServerMessage where
  message : Option ServerPayload
deriving DecidableEq, Repr

/-! ## 32-bit signed wraparound arithmetic -/

/-- Two-complement reduction of an integer into the i32 range. -/
def wrap32 (z : Int) : Int :=
  (z + 2147483648) % 4294967296 - 2147483648

/-- Membership in the i32 range. -/
def Int32Range (z : Int) : Prop :=
  -2147483648 ≤ z ∧ z ≤ 2147483647

/-- Addition of two i32 values as performed by add.a + add.b in
Client::handle (no overflow check; fixed-width wraparound semantics). -/
def i32add (a b : Int) : Int :=
  wrap32 (a + b)

/-! ## Client::handle -/

/-- Dispatch on one successfully decoded ClientMessage, as written in the
body of Client::handle (server.rs lines 41 to 66): an absent payload
produces no response; EchoMessage is answered with the same content;
AddRequest is answered with the wrapped sum. -/
def processMessage (m : ClientMessage) : Option ServerMessage :=
  match m.message with
  | none => none
  | some (ClientPayload.echoMessage echo) =>
      some ⟨some (ServerPayload.echoMessage ⟨echo.content⟩)⟩
  | some (ClientPayload.addRequest add) =>
      some ⟨some (ServerPayload.addResponse ⟨i32add add.a add.b⟩)⟩

/-- Outcome of one stream.read call, with the decode outcome of the read
bytes folded in (the codec is an external collaborator):
ok decoded is Ok(n) with n greater than 0, where decoded is the result of
ClientMessage::decode on the bytes; eof is Ok(0); wouldBlock is
Err(WouldBlock); readErr is any other read error. -/
inductive ReadEvent
  | ok (decoded : Option ClientMessage)
  | eof
  | wouldBlock
  | readErr
deriving DecidableEq, Repr

/-- One iteration of the handler loop: the value loaded from is_running at
the loop head, the outcome of stream.read, and whether write_all would
succeed if a response is written this iteration. -/
structure Step where
  flag : Bool
  read : ReadEvent
  writeOk : Bool
deriving DecidableEq, Repr

/-- How the handler loop ends.  Only writeError makes Client::handle return
Err (propagated by the question-mark operator on write_all); flagCleared,
peerClosed and readError all reach the final Ok(()).  stillRunning means
the supplied trace ended with the loop still live. -/
inductive ExitKind
  | flagCleared
  | peerClosed
  | readError
  | writeError
  | stillRunning
deriving DecidableEq, Repr

/-- Whether this exit makes Client::handle return an Err value. -/
def ExitKind.isErr : ExitKind → Bool
  | ExitKind.writeError => true
  | _ => false

/-- Client::handle (server.rs lines 25 to 80) over a trace of loop
iterations: returns the responses written, in order, and how the loop
ended.  A decode failure and an absent payload both fall through to the
next iteration with nothing written; zero bytes read exits normally; a
would-block read retries; any other read error exits normally; a write
failure exits with an error. -/
def handle : List Step → List ServerMessage × ExitKind
  | [] => ([], ExitKind.stillRunning)
  | st :: rest =>
    if st.flag then
      match st.read with
      | ReadEvent.eof => ([], ExitKind.peerClosed)
      | ReadEvent.readErr => ([], ExitKind.readError)
      | ReadEvent.wouldBlock => handle rest
      | ReadEvent.ok none => handle rest
      | ReadEvent.ok (some m) =>
        match processMessage m with
        | none => handle rest
        | some resp =>
          if st.writeOk then
            let r := handle rest
            (resp :: r.1, r.2)
          else ([], ExitKind.writeError)
    else ([], ExitKind.flagCleared)

/-- The requests of a trace that the handler answers: reads that decoded
successfully, carried a payload, and whose response write succeeded,
listed in arrival order up to the iteration where the loop ends. -/
def requestsAnswered : List Step → List ClientMessage
  | [] => []
  | st :: rest =>
    if st.flag then
      match st.read with
      | ReadEvent.eof => []
      | ReadEvent.readErr => []
      | ReadEvent.wouldBlock => requestsAnswered rest
      | ReadEvent.ok none => requestsAnswered rest
      | ReadEvent.ok (some m) =>
        match processMessage m with
        | none => requestsAnswered rest
        | some _ =>
          if st.writeOk then m :: requestsAnswered rest else []
    else []

/-! ## Server state, stop and run -/

/-- A registered client handle (the try_clone of an accepted stream kept in
the clients vector).  shutdownOk records whether a shutdown(Both) call on
this handle would succeed; the socket itself is external. -/
structure Conn where
  id : Nat
  shutdownOk : Bool
deriving DecidableEq, Repr

/-- The shared server state: the is_running atomic flag and the clients
registry (Vec of TcpStream behind a Mutex). -/
structure ServerState where
  is_running : Bool
  clients : List Conn
deriving DecidableEq, Repr

/-- The store of false into is_running at the top of Server::stop. -/
def clearFlag (s : ServerState) : ServerState :=
  { s with is_running := false }

/-- The drain loop of Server::stop: under the registry mutex, every
registered handle is removed and shutdown(Both) is attempted on it; a
failed shutdown is logged and the drain continues.  Returns the new state
and the per-connection shutdown outcomes in registry order. -/
def drainClients (s : ServerState) : ServerState × List Bool :=
  ({ s with clients := [] }, s.clients.map Conn.shutdownOk)

/-- Server::stop (server.rs lines 150 to 161): clears the running flag,
then drains the registry, shutting down every removed handle. -/
def stop (s : ServerState) : ServerState × List Bool :=
  drainClients (clearFlag s)

/-- Outcome of one listener.accept call: conn is Ok with the accepted
handle, where cloneOk records whether stream.try_clone() succeeds for the
registry copy; wouldBlock is Err(WouldBlock); acceptErr is any other
accept error (logged, loop continues). -/
inductive AcceptEvent
  | conn (c : Conn) (cloneOk : Bool)
  | wouldBlock
  | acceptErr
deriving DecidableEq, Repr

/-- One iteration of the acceptor loop.  stopBefore records whether a
concurrent Server::stop ran between the previous iteration and this
iteration's load of is_running. -/
structure RunStep where
  stopBefore : Bool
  event : AcceptEvent
deriving DecidableEq, Repr

/-- Result of Server::run: stopped means the loop observed a cleared flag
and run returned Ok(()); errNonblocking means set_nonblocking failed;
errClone means a try_clone failure was propagated out of the loop by the
question-mark operator; stillRunning means the trace ended with the loop
live. -/
inductive RunResult
  | stopped
  | errNonblocking
  | errClone
  | stillRunning
deriving DecidableEq, Repr

/-- Whether this run outcome is an Err value of Server::run. -/
def RunResult.isErr : RunResult → Bool
  | RunResult.errNonblocking => true
  | RunResult.errClone => true
  | _ => false

/-- The accept loop of Server::run (server.rs lines 114 to 143).  Each
iteration first applies any concurrent stop, then loads is_running; on a
cleared flag the loop exits and run returns Ok.  An accepted connection is
pushed onto the registry when try_clone succeeds, and a try_clone failure
is returned as an error; would-block sleeps and retries; any other accept
error is logged and the loop continues.  Handler threads spawned per
connection are modelled separately by handle. -/
def runLoop : List RunStep → ServerState → RunResult × ServerState
  | [], s => (RunResult.stillRunning, s)
  | st :: rest, s =>
    let s1 := if st.stopBefore then (stop s).1 else s
    if s1.is_running then
      match st.event with
      | AcceptEvent.conn c cloneOk =>
        if cloneOk then
          runLoop rest { s1 with clients := s1.clients ++ [c] }
        else (RunResult.errClone, s1)
      | AcceptEvent.wouldBlock => runLoop rest s1
      | AcceptEvent.acceptErr => runLoop rest s1
    else (RunResult.stopped, s1)

/-- Server::run (server.rs lines 108 to 147): first stores true into
is_running, then sets the listener non-blocking (nbOk is the outcome of
set_nonblocking), then enters the accept loop. -/
def run (nbOk : Bool) (steps : List RunStep) (s : ServerState) :
    RunResult × ServerState :=
  let s1 := { s with is_running := true }
  if nbOk then runLoop steps s1 else (RunResult.errNonblocking, s1)

/-! ## Server construction -/

/-- The bound listening socket, identified by its bound local port. -/
structure Listener where
  boundPort : Nat
deriving DecidableEq, Repr

/-- Modelled from the spec: TcpListener::bind of the standard library is an
external collaborator absent from src/.  Per the spec, binding to port 0
yields an OS-assigned ephemeral port, and binding fails when the address
is unavailable; osPort is the port the OS would assign and available
whether the address is free. -/
def tcpBind (port osPort : Nat) (available : Bool) : Option Listener :=
  if available then some ⟨if port = 0 then osPort else port⟩ else none

/-- A constructed server: the listener plus the initial shared state. -/
structure Server where
  listener : Listener
  state : ServerState
deriving DecidableEq, Repr

/-- Server::new_with_port (server.rs lines 98 to 105): binds, and on
success returns the server with is_running initialised true and an empty
clients registry; a bind failure is returned and no server is produced. -/
def new_with_port (port osPort : Nat) (available : Bool) : Option Server :=
  (tcpBind port osPort available).map fun l =>
    { listener := l, state := { is_running := true, clients := [] } }

/-! ## Shared lemmas about the acceptor loop -/

/-- The loop itself never produces the non-blocking configuration error;
that error can only come from the set_nonblocking step before the loop. -/
theorem runLoop_ne_errNonblocking (steps : List RunStep) (s : ServerState) :
    (runLoop steps s).1 ≠ RunResult.errNonblocking := by
  induction steps generalizing s with
  | nil => simp [runLoop]
  | cons st rest ih =>
    rcases st with ⟨sb, ev⟩
    simp only [runLoop]
    cases h1 : (if sb then (stop s).1 else s).is_running
    · simp
    · cases ev with
      | conn c cloneOk =>
        cases cloneOk
        · simp
        · simp [h1, ih]
      | wouldBlock => simp [h1, ih]
      | acceptErr => simp [h1, ih]

/-- A clone error out of the loop points at an accepted connection whose
try_clone failed. -/
theorem runLoop_errClone (steps : List RunStep) (s : ServerState) :
    (runLoop steps s).1 = RunResult.errClone →
      ∃ st ∈ steps, ∃ c, st.event = AcceptEvent.conn c false := by
  induction steps generalizing s with
  | nil => simp [runLoop]
  | cons st rest ih =>
    rcases st with ⟨sb, ev⟩
    simp only [runLoop]
    cases h1 : (if sb then (stop s).1 else s).is_running
    · simp
    · cases ev with
      | conn c cloneOk =>
        cases cloneOk
        · intro _
          exact ⟨⟨sb, AcceptEvent.conn c false⟩, by simp, c, rfl⟩
        · simp only [h1, if_true]
          intro h
          rcases ih _ h with ⟨st, hst, c2, hc2⟩
          exact ⟨st, by simp [hst], c2, hc2⟩
      | wouldBlock =>
        simp only [h1, if_true]
        intro h
        rcases ih _ h with ⟨st, hst, c2, hc2⟩
        exact ⟨st, by simp [hst], c2, hc2⟩
      | acceptErr =>
        simp only [h1, if_true]
        intro h
        rcases ih _ h with ⟨st, hst, c2, hc2⟩
        exact ⟨st, by simp [hst], c2, hc2⟩

/-- When no accepted connection fails its try_clone, the loop either
observes the cleared flag and stops, or is still live when the trace
ends. -/
theorem runLoop_no_clone_failure (steps : List RunStep) (s : ServerState)
    (h : ∀ st ∈ steps, ∀ c ok, st.event = AcceptEvent.conn c ok → ok = true) :
    (runLoop steps s).1 = RunResult.stopped ∨
      (runLoop steps s).1 = RunResult.stillRunning := by
  induction steps generalizing s with
  | nil => simp [runLoop]
  | cons st rest ih =>
    rcases st with ⟨sb, ev⟩
    simp only [runLoop]
    cases h1 : (if sb then (stop s).1 else s).is_running
    · simp
    · cases ev with
      | conn c cloneOk =>
        have hok : cloneOk = true :=
          h ⟨sb, AcceptEvent.conn c cloneOk⟩ (by simp) c cloneOk rfl
        subst hok
        simp only [h1, if_true]
        exact ih _ fun st hst => h st (by simp [hst])
      | wouldBlock =>
        simp only [h1, if_true]
        exact ih _ fun st hst => h st (by simp [hst])
      | acceptErr =>
        simp only [h1, if_true]
        exact ih _ fun st hst => h st (by simp [hst])

/-! ## Claims -/

/-- C1: a successfully decoded AddRequest(a, b) with a successful write is
answered, in place, by AddResponse whose result is a + b under 32-bit
signed wraparound semantics: the result lies in the i32 range and is
congruent to the mathematical sum mod 2 ^ 32, for every pair of i32
operands, overflowing pairs included. -/
theorem add_request_wraps (a b : Int) (rest : List Step)
    (ha : Int32Range a) (hb : Int32Range b) :
    handle (⟨true, ReadEvent.ok
        (some ⟨some (ClientPayload.addRequest ⟨a, b⟩)⟩), true⟩ :: rest)
      = (⟨some (ServerPayload.addResponse ⟨i32add a b⟩)⟩ :: (handle rest).1,
         (handle rest).2)
    ∧ Int32Range (i32add a b)
    ∧ i32add a b % 4294967296 = (a + b) % 4294967296 := by
  refine ⟨rfl, ?_, ?_⟩
  · unfold Int32Range i32add wrap32
    omega
  · unfold i32add wrap32
    omega

/-- C1 witness: the overflowing pair (2147483647, 1) wraps to the minimum
i32 value. -/
theorem add_request_wraps_witness :
    Int32Range 2147483647 ∧ Int32Range 1 ∧ i32add 2147483647 1 = -2147483648
    ∧ (handle (⟨true, ReadEvent.ok
        (some ⟨some (ClientPayload.addRequest ⟨2147483647, 1⟩)⟩), true⟩ :: [])
      = (⟨some (ServerPayload.addResponse ⟨i32add 2147483647 1⟩)⟩
          :: (handle []).1, (handle []).2)
    ∧ Int32Range (i32add 2147483647 1)
    ∧ i32add 2147483647 1 % 4294967296
        = (2147483647 + 1) % 4294967296) :=
  ⟨by unfold Int32Range; omega,
   by unfold Int32Range; omega,
   by unfold i32add wrap32; decide,
   add_request_wraps 2147483647 1 []
     (by unfold Int32Range; omega) (by unfold Int32Range; omega)⟩

/-- C2 counterexample: with the non-blocking configuration succeeding, a
single accepted connection whose try_clone fails makes run return the
clone error, so run can fail after the non-blocking configuration step,
contradicting the claim that it returns an error only when that step
fails. -/
theorem run_clone_error_counterexample :
    (run true [⟨false, AcceptEvent.conn ⟨0, true⟩ false⟩] ⟨true, []⟩).1
      = RunResult.errClone
    ∧ RunResult.errClone ≠ RunResult.errNonblocking
    ∧ RunResult.errClone.isErr = true := by
  refine ⟨rfl, by decide, rfl⟩

/-- C2 amended: run returns the non-blocking configuration error exactly
when that configuration fails; the only other error it can return is a
try_clone failure on an accepted connection, propagated out of the loop;
when the configuration succeeds and no accepted connection fails its
try_clone, run never errors: it either observes the cleared running flag
and returns successfully or is still looping when the trace ends. -/
theorem run_error_conditions (nbOk : Bool) (steps : List RunStep)
    (s : ServerState) :
    ((run nbOk steps s).1 = RunResult.errNonblocking ↔ nbOk = false)
    ∧ ((run nbOk steps s).1 = RunResult.errClone →
        ∃ st ∈ steps, ∃ c, st.event = AcceptEvent.conn c false)
    ∧ ((∀ st ∈ steps, ∀ c ok, st.event = AcceptEvent.conn c ok → ok = true) →
        (run nbOk steps s).1 = RunResult.stopped ∨
          (run nbOk steps s).1 = RunResult.stillRunning ∨ nbOk = false) := by
  cases nbOk
  · refine ⟨by simp [run], ?_, ?_⟩
    · intro h
      simp [run] at h
    · intro _
      right; right; rfl
  · refine ⟨?_, ?_, ?_⟩
    · simp only [run, if_true]
      constructor
      · intro h
        exact absurd h (runLoop_ne_errNonblocking steps _)
      · intro h
        cases h
    · simp only [run, if_true]
      exact runLoop_errClone steps _
    · intro h
      simp only [run, if_true]
      rcases runLoop_no_clone_failure steps { s with is_running := true } h
        with h1 | h1
      · exact Or.inl h1
      · exact Or.inr (Or.inl h1)

/-- C2 amended witness: a concrete trace of one would-block accept with the
configuration succeeding neither stops nor errors. -/
theorem run_error_conditions_witness :
    (run true [⟨false, AcceptEvent.wouldBlock⟩] ⟨true, []⟩).1
        = RunResult.stopped
      ∨ (run true [⟨false, AcceptEvent.wouldBlock⟩] ⟨true, []⟩).1
        = RunResult.stillRunning
      ∨ true = false :=
  (run_error_conditions true [⟨false, AcceptEvent.wouldBlock⟩] ⟨true, []⟩).2.2
    (by
      intro st hst c ok h
      rcases List.mem_singleton.mp hst with rfl
      simp at h)

/-- C3: a read of N greater than 0 bytes that fails to decode is silently
discarded: with the running flag observed true, the handler writes
nothing, does not terminate, and the rest of the trace is processed
exactly as if the malformed bytes had never arrived. -/
theorem decode_failure_silently_discarded (w : Bool) (rest : List Step) :
    handle (⟨true, ReadEvent.ok none, w⟩ :: rest) = handle rest := rfl

/-- C4: a successfully decoded Echo request is answered, in place, by a
Response Echo whose content is identical to the request content, for every
content string, with no transformation and no length restriction. -/
theorem echo_identical_content (content : String) (rest : List Step) :
    processMessage ⟨some (ClientPayload.echoMessage ⟨content⟩)⟩
      = some ⟨some (ServerPayload.echoMessage ⟨content⟩)⟩
    ∧ handle (⟨true, ReadEvent.ok
        (some ⟨some (ClientPayload.echoMessage ⟨content⟩)⟩), true⟩ :: rest)
      = (⟨some (ServerPayload.echoMessage ⟨content⟩)⟩ :: (handle rest).1,
         (handle rest).2) :=
  ⟨rfl, rfl⟩

/-- C5: stop first clears the running flag and then drains the registry,
attempting a both-directions shutdown on every registered handle without
failing on any per-connection shutdown error (the outcome list covers
every client); after stop the registry is empty, and a second stop is safe
with a drain that removes and shuts down nothing. -/
theorem stop_clears_drains_idempotent (s : ServerState) :
    stop s = drainClients (clearFlag s)
    ∧ (stop s).1.is_running = false
    ∧ (stop s).1.clients = []
    ∧ (stop s).2 = s.clients.map Conn.shutdownOk
    ∧ (stop s).2.length = s.clients.length
    ∧ (stop (stop s).1).2 = []
    ∧ (stop (stop s).1).1 = (stop s).1 := by
  refine ⟨rfl, rfl, rfl, rfl, ?_, rfl, rfl⟩
  simp [stop, drainClients, clearFlag]

/-- C6: the responses a handler writes are exactly one per answered
request, in arrival order: the written list is the image under the
dispatch function of the requests answered on that trace, and its length
equals the number of answered requests; reads that see zero bytes, would
block, or fail to decode contribute nothing. -/
theorem handle_fifo_one_response_per_request (steps : List Step) :
    (handle steps).1
        = List.filterMap processMessage (requestsAnswered steps)
    ∧ (handle steps).1.length = (requestsAnswered steps).length := by
  induction steps with
  | nil => exact ⟨rfl, rfl⟩
  | cons st rest ih =>
    rcases st with ⟨flag, rd, w⟩
    cases flag
    · simp [handle, requestsAnswered]
    · cases rd with
      | eof => simp [handle, requestsAnswered]
      | readErr => simp [handle, requestsAnswered]
      | wouldBlock => simpa [handle, requestsAnswered] using ih
      | ok dec =>
        cases dec with
        | none => simpa [handle, requestsAnswered] using ih
        | some m =>
          cases hpm : processMessage m with
          | none => simpa [handle, requestsAnswered, hpm] using ih
          | some resp =>
            cases w
            · simp [handle, requestsAnswered, hpm]
            · simpa [handle, requestsAnswered, hpm] using ih

/-- C7: a zero-byte read with the running flag observed true ends the
handler loop at once with the peer-closed exit, which is not an error
(Client::handle returns Ok); the model gives each connection its own
trace and state, so this exit touches no other handler and no acceptor
state. -/
theorem peer_close_clean_exit (w : Bool) (rest : List Step) :
    handle (⟨true, ReadEvent.eof, w⟩ :: rest) = ([], ExitKind.peerClosed)
    ∧ ExitKind.peerClosed.isErr = false :=
  ⟨rfl, rfl⟩

/-- C8: with the address available, new_with_port produces a server bound
to the requested port (port 0 becoming the OS-assigned ephemeral port)
whose running flag is initialised true and whose registry is empty; with
the address unavailable it produces no server. -/
theorem new_with_port_initial_state (port osPort : Nat) :
    new_with_port port osPort true
      = some { listener := ⟨if port = 0 then osPort else port⟩,
               state := { is_running := true, clients := [] } }
    ∧ new_with_port port osPort false = none :=
  ⟨rfl, rfl⟩

/-- C9: a successfully decoded ClientMessage whose payload field is absent
is silently ignored: dispatch produces no response and the handler
continues with the rest of the trace unchanged, for any write oracle. -/
theorem empty_payload_ignored (w : Bool) (rest : List Step) :
    processMessage ⟨none⟩ = none
    ∧ handle (⟨true, ReadEvent.ok (some ⟨none⟩), w⟩ :: rest) = handle rest :=
  ⟨rfl, rfl⟩

/-- C10: run stores true into the running flag on entry, before the
non-blocking configuration (the flag is true even when that configuration
fails), so running a stopped server is indistinguishable from running a
freshly constructed one, and the first loop iteration after a stop
proceeds instead of exiting. -/
theorem run_after_stop_restarts (s : ServerState) (nbOk : Bool)
    (steps : List RunStep) :
    run nbOk steps (stop s).1
        = run nbOk steps { is_running := true, clients := [] }
    ∧ (run false steps s).2.is_running = true
    ∧ (run true [⟨false, AcceptEvent.wouldBlock⟩] (stop s).1).1
        = RunResult.stillRunning :=
  ⟨rfl, rfl, rfl⟩

end RustServer
